import Mathlib

/-!
Shallow embedding of the kinect_camera driver
(src/kinect_camera/include/kinect_camera/kinect.h) and proofs about it.

The repository ships only the class header.  The one member function whose
body appears in the header is the liveness check `ok()` (kinect.h lines
113-124); it is embedded faithfully below as `okStep`.  Every other member
function (getPoint3D, getDistanceFromReading, createDepthProjectionMatrix,
publish, the frame-store callbacks and the format-switch callback) is only
declared in the header, so those operations are modelled from the
specification, as marked by the doc comments starting with
`Modelled from the spec:`.

Real-valued quantities (distances, ray coefficients, accelerometer and
tilt readings) are embedded as rationals so every definition is executable
and equality is decidable.
-/

/-- A per-pixel projection ray: the (x,y) coefficient pair such that the
reconstructed 3D point is (x * d, y * d, d) for metric depth d.  The
header stores these as entries of `cv::Point3d * depth_proj_matrix_`;
the spec describes each entry as an (x-coefficient, y-coefficient) pair. -/
structure Ray where
  x : ℚ
  y : ℚ
deriving DecidableEq, Repr

/-- A reconstructed 3D point (outputs x, y, z of getPoint3D). -/
structure Point3D where
  x : ℚ
  y : ℚ
  z : ℚ
deriving DecidableEq, Repr

/-- Modelled from the spec: the inertial message artifact (`imu_msg_` in the
header; the body of `publishImu` that fills it is not in the repository).
Per the spec the InertialState is three-axis acceleration plus a tilt
angle. -/
structure ImuMsg where
  ax : ℚ
  ay : ℚ
  az : ℚ
  tilt : ℚ
deriving DecidableEq, Repr

/-- Camera intrinsics used to build the depth projection table (supplied by
the external calibration metadata source per the spec). -/
structure Intrinsics where
  cx : ℚ
  cy : ℚ
  fx : ℚ
  fy : ℚ
deriving DecidableEq, Repr

/-- The KinectDriver state: the fields of the class in kinect.h that the
verified claims touch, with the source field names.  `depth_sent_` and
`rgb_sent_` are the per-channel sent flags (kinect.h lines 186-187): a
channel holds new unconsumed data exactly when its sent flag is false. -/
structure KinectState where
  width_ : Nat
  height_ : Nat
  depth_roi_horiz_start_ : Nat
  depth_roi_horiz_width_ : Nat
  depth_roi_vert_start_ : Nat
  depth_roi_vert_height_ : Nat
  depth_buf_ : List Nat
  rgb_buf_ : List Nat
  depth_sent_ : Bool
  rgb_sent_ : Bool
  accel_x_ : ℚ
  accel_y_ : ℚ
  accel_z_ : ℚ
  tilt_angle_ : ℚ
  imu_msg_ : ImuMsg
  have_depth_matrix_ : Bool
  depth_proj_matrix_ : List Ray
  depth_info_ : Intrinsics
deriving DecidableEq, Repr

/-- The freenect invalid-depth sentinel: the raw 11-bit code the sensor
reports for a pixel with no valid reading. -/
def invalidReadingSentinel : Nat := 2047

/-- Linear coefficient of the standard raw-to-meters calibration curve. -/
def depthCurveA : ℚ := -30711016 / 10000000000

/-- Constant coefficient of the standard raw-to-meters calibration curve. -/
def depthCurveB : ℚ := 33309495161 / 10000000000

/-- Modelled from the spec: the body of `getDistanceFromReading`
(declared at kinect.h line 231) is not in the repository.  Per the spec it
applies the fixed nonlinear calibration curve mapping raw depth codes
to metric distance and returns the invalid sentinel for codes at the
defined invalid-reading constant; we embed invalidity as `none` and use
the standard curve 1 / (reading * a + b) over the rationals. -/
def getDistanceFromReading (reading : Nat) : Option ℚ :=
  if reading = invalidReadingSentinel then none
  else some (1 / ((reading : ℚ) * depthCurveA + depthCurveB))

/-- Whether pixel (u,v) lies inside the configured depth region of interest
(fields `depth_roi_*_` of kinect.h lines 193-196). -/
def inROI (s : KinectState) (u v : Nat) : Bool :=
  decide (s.depth_roi_horiz_start_ ≤ u ∧
          u < s.depth_roi_horiz_start_ + s.depth_roi_horiz_width_ ∧
          s.depth_roi_vert_start_ ≤ v ∧
          v < s.depth_roi_vert_start_ + s.depth_roi_vert_height_)

/-- Modelled from the spec: the body of `getPoint3D` (declared at kinect.h
line 141) is not in the repository.  Per the spec, reconstructPoint looks
up the distance via the calibration curve, multiplies by the precomputed
ray for (u,v), giving x = rayX * d, y = rayY * d, z = d, and fails when
the distance is invalid or (u,v) lies outside the region of interest. -/
def getPoint3D (s : KinectState) (buf : List Nat) (u v : Nat) : Option Point3D :=
  if inROI s u v then
    match getDistanceFromReading (buf.getD (v * s.width_ + u) 0) with
    | some d =>
        let ray := s.depth_proj_matrix_.getD (v * s.width_ + u) ⟨0, 0⟩
        some ⟨ray.x * d, ray.y * d, d⟩
    | none => none
  else none

/-- The pixel coordinates enumerated by the point-cloud generation loop:
per the spec, generation iterates the region of interest only. -/
def roiPixels (s : KinectState) : List (Nat × Nat) :=
  (List.range s.depth_roi_vert_height_).flatMap fun dv =>
    (List.range s.depth_roi_horiz_width_).map fun du =>
      (s.depth_roi_horiz_start_ + du, s.depth_roi_vert_start_ + dv)

/-- Modelled from the spec: the point-cloud generation inside `publish`
(declared at kinect.h line 128; body not in the repository) iterates the
region of interest, calls getPoint3D per pixel and skips invalid results,
omitting them from the output. -/
def generateCloud (s : KinectState) (buf : List Nat) : List Point3D :=
  (roiPixels s).filterMap fun p => getPoint3D s buf p.1 p.2

/-- The constant-ray 4x4 scenario state of the end-to-end test in the
spec: full-image region of interest and a projection table whose every
ray coefficient is 1/10. -/
def scenarioState : KinectState :=
  { width_ := 4
    height_ := 4
    depth_roi_horiz_start_ := 0
    depth_roi_horiz_width_ := 4
    depth_roi_vert_start_ := 0
    depth_roi_vert_height_ := 4
    depth_buf_ := List.replicate 16 700
    rgb_buf_ := []
    depth_sent_ := false
    rgb_sent_ := false
    accel_x_ := 0
    accel_y_ := 0
    accel_z_ := 0
    tilt_angle_ := 0
    imu_msg_ := ⟨0, 0, 0, 0⟩
    have_depth_matrix_ := true
    depth_proj_matrix_ := List.replicate 16 ⟨1/10, 1/10⟩
    depth_info_ := ⟨2, 2, 1, 1⟩ }

theorem getD_replicate_of_lt {α : Type} (a d : α) :
    ∀ (n i : Nat), i < n → (List.replicate n a).getD i d = a := by
  intro n
  induction n with
  | zero => intro i h; exact absurd h (Nat.not_lt_zero i)
  | succ m ih =>
    intro i h
    cases i with
    | zero => simp [List.replicate_succ]
    | succ j =>
      rw [List.replicate_succ, List.getD_cons_succ]
      exact ih j (Nat.lt_of_succ_lt_succ h)

theorem length_filterMap_lt_of_mem_none {α β : Type} (f : α → Option β) :
    ∀ (l : List α) (x : α), x ∈ l → f x = none →
      (l.filterMap f).length < l.length := by
  intro l
  induction l with
  | nil => intro x hx _; simp at hx
  | cons a t ih =>
    intro x hx hfx
    rcases List.mem_cons.mp hx with rfl | hmem
    · rw [List.filterMap_cons_none hfx]
      exact Nat.lt_succ_of_le (List.length_filterMap_le f t)
    · cases hfa : f a with
      | none =>
        rw [List.filterMap_cons_none hfa]
        exact Nat.lt_succ_of_lt (ih x hmem hfx)
      | some b =>
        rw [List.filterMap_cons_some hfa]
        simpa using Nat.succ_lt_succ (ih x hmem hfx)

/-- Claim C1: for every pixel (u,v) inside the region of interest whose depth
code maps to a valid metric distance d, getPoint3D returns the 3D point with
x = rayX(u,v) * d, y = rayY(u,v) * d, z = d, where rayX/rayY are the
precomputed per-pixel projection-table coefficients; in particular, for a
constant-distance depth image with all ray coefficients 1/10 and a
full-image 4x4 region of interest, every reconstructed point has z equal to
that distance and x,y equal to 1/10 of it. -/
theorem C1_reconstruction_ray_scaling :
    (∀ (s : KinectState) (buf : List Nat) (u v : Nat) (d : ℚ),
        inROI s u v = true →
        getDistanceFromReading (buf.getD (v * s.width_ + u) 0) = some d →
        getPoint3D s buf u v =
          some ⟨(s.depth_proj_matrix_.getD (v * s.width_ + u) ⟨0, 0⟩).x * d,
                (s.depth_proj_matrix_.getD (v * s.width_ + u) ⟨0, 0⟩).y * d, d⟩) ∧
    (∀ (code : Nat) (d : ℚ),
        getDistanceFromReading code = some d →
        ∀ u v : Nat, u < 4 → v < 4 →
          getPoint3D scenarioState (List.replicate 16 code) u v =
            some ⟨1/10 * d, 1/10 * d, d⟩) := by
  have hgen : ∀ (s : KinectState) (buf : List Nat) (u v : Nat) (d : ℚ),
      inROI s u v = true →
      getDistanceFromReading (buf.getD (v * s.width_ + u) 0) = some d →
      getPoint3D s buf u v =
        some ⟨(s.depth_proj_matrix_.getD (v * s.width_ + u) ⟨0, 0⟩).x * d,
              (s.depth_proj_matrix_.getD (v * s.width_ + u) ⟨0, 0⟩).y * d, d⟩ := by
    intro s buf u v d hroi hd
    unfold getPoint3D
    rw [if_pos hroi, hd]
  refine ⟨hgen, ?_⟩
  intro code d hd u v hu hv
  have hroi : inROI scenarioState u v = true := by
    simp [inROI, scenarioState]
    omega
  have hw : scenarioState.width_ = 4 := rfl
  have hidx : v * scenarioState.width_ + u < 16 := by rw [hw]; omega
  have h1 : (List.replicate 16 code).getD (v * scenarioState.width_ + u) 0 = code :=
    getD_replicate_of_lt _ _ _ _ hidx
  have h2 : scenarioState.depth_proj_matrix_.getD
      (v * scenarioState.width_ + u) (⟨0, 0⟩ : Ray) = ⟨1/10, 1/10⟩ := by
    show (List.replicate 16 (⟨1/10, 1/10⟩ : Ray)).getD
      (v * scenarioState.width_ + u) ⟨0, 0⟩ = ⟨1/10, 1/10⟩
    exact getD_replicate_of_lt _ _ _ _ hidx
  have h3 := hgen scenarioState (List.replicate 16 code) u v d hroi
    (by rw [h1]; exact hd)
  rw [h3, h2]

/-- Witness for C1: the raw code 700 maps to 10000000000/11811783961 meters
and the pixel (2,3) of the constant-code scenario image reconstructs to the
ray-scaled point. -/
theorem C1_reconstruction_ray_scaling_witness :
    getDistanceFromReading 700 = some (10000000000 / 11811783961) ∧
    getPoint3D scenarioState (List.replicate 16 700) 2 3 =
      some ⟨1/10 * (10000000000 / 11811783961), 1/10 * (10000000000 / 11811783961),
            10000000000 / 11811783961⟩ :=
  ⟨by norm_num [getDistanceFromReading, invalidReadingSentinel, depthCurveA, depthCurveB],
   C1_reconstruction_ray_scaling.2 700 _
     (by norm_num [getDistanceFromReading, invalidReadingSentinel, depthCurveA, depthCurveB])
     2 3 (by decide) (by decide)⟩

/-- Claim C2: getPoint3D returns invalid (none) whenever the depth code at
(u,v) is the invalid-reading sentinel or (u,v) lies outside the configured
region of interest, and every such invalid point is omitted from the
generated point cloud, so the point count is strictly less than the ROI
pixel count whenever at least one sample in the ROI is invalid. -/
theorem C2_invalid_or_outside_roi :
    (∀ (s : KinectState) (buf : List Nat) (u v : Nat),
        buf.getD (v * s.width_ + u) 0 = invalidReadingSentinel ∨ inROI s u v = false →
        getPoint3D s buf u v = none) ∧
    (∀ (s : KinectState) (buf : List Nat),
        (∃ p ∈ roiPixels s,
          buf.getD (p.2 * s.width_ + p.1) 0 = invalidReadingSentinel) →
        (generateCloud s buf).length < (roiPixels s).length) := by
  have hinv : ∀ (s : KinectState) (buf : List Nat) (u v : Nat),
      buf.getD (v * s.width_ + u) 0 = invalidReadingSentinel →
      getPoint3D s buf u v = none := by
    intro s buf u v h
    by_cases hr : inROI s u v = true
    · unfold getPoint3D getDistanceFromReading
      rw [if_pos hr, h, if_pos rfl]
    · unfold getPoint3D
      rw [if_neg hr]
  constructor
  · intro s buf u v h
    rcases h with h | h
    · exact hinv s buf u v h
    · unfold getPoint3D
      rw [if_neg (by rw [h]; exact Bool.false_ne_true)]
  · intro s buf h
    obtain ⟨p, hp, hcode⟩ := h
    exact length_filterMap_lt_of_mem_none _ _ p hp (hinv s buf p.1 p.2 hcode)

/-- Witness for C2: a 4x4 depth image that is the invalid sentinel
everywhere yields a point cloud strictly smaller than the 16-pixel region
of interest. -/
theorem C2_invalid_or_outside_roi_witness :
    (∃ p ∈ roiPixels scenarioState,
      (List.replicate 16 invalidReadingSentinel).getD
        (p.2 * scenarioState.width_ + p.1) 0 = invalidReadingSentinel) ∧
    (generateCloud scenarioState (List.replicate 16 invalidReadingSentinel)).length <
      (roiPixels scenarioState).length :=
  ⟨by decide, C2_invalid_or_outside_roi.2 scenarioState _ (by decide)⟩

/-- Output messages emitted to the transport layer by the driver. -/
inductive Emission
  | imuE (m : ImuMsg)
  | depthImgE (img : List Nat)
  | rgbImgE (img : List Nat)
  | cloudE (pts : List Point3D)
  | cloud2E (pts : List Point3D)
deriving DecidableEq, Repr

/-- The readings obtained during one call of ok() (kinect.h lines 113-124):
the mks accelerometer triple and tilt angle read from the freenect device
state, and the return code of freenect_process_events. -/
structure DevicePoll where
  ax : ℚ
  ay : ℚ
  az : ℚ
  tilt : ℚ
  eventsResult : Int
deriving DecidableEq, Repr

/-- Result of one call of ok(): the updated driver state, the messages
emitted during the call, and the returned boolean. -/
structure OkOut where
  state : KinectState
  emissions : List Emission
  result : Bool
deriving DecidableEq, Repr

/-- Modelled from the spec: the body of publishImu (declared at kinect.h
line 130) is not in the repository.  Per the spec the inertial message is
one of the derived output artifacts of the driver: publishImu fills
`imu_msg_` from the current inertial state and emits it. -/
def publishImu (s : KinectState) : KinectState × Emission :=
  let m : ImuMsg := ⟨s.accel_x_, s.accel_y_, s.accel_z_, s.tilt_angle_⟩
  ({ s with imu_msg_ := m }, Emission.imuE m)

/-- Modelled from the spec: the body of the depth store callback (depthCb,
declared at kinect.h line 83) is not in the repository.  Per the spec it
copies the incoming buffer under the lock and marks the depth channel as
holding new, not yet published data, which the header tracks as
depth_sent_ = false (kinect.h line 186). -/
def storeDepth (s : KinectState) (buf : List Nat) : KinectState :=
  { s with depth_buf_ := buf, depth_sent_ := false }

/-- Modelled from the spec: the body of the RGB store callback (rgbCb,
declared at kinect.h line 90) is not in the repository; as storeDepth but
for the color channel (rgb_sent_, kinect.h line 187). -/
def storeRgb (s : KinectState) (buf : List Nat) : KinectState :=
  { s with rgb_buf_ := buf, rgb_sent_ := false }

/-- A raw-sample store callback the event pump can deliver synchronously
during a poll call: per the spec, callbacks execute on the caller thread
context during the poll, and each one only stores its buffer (emission is
the job of the Publisher Gate, never of a store callback). -/
inductive CallbackEvent
  | cbDepth (buf : List Nat)
  | cbRgb (buf : List Nat)
deriving DecidableEq, Repr

/-- Deliver a sequence of pending store callbacks to the driver state. -/
def execCallbacks : KinectState → List CallbackEvent → KinectState
  | s, [] => s
  | s, CallbackEvent.cbDepth b :: es => execCallbacks (storeDepth s b) es
  | s, CallbackEvent.cbRgb b :: es => execCallbacks (storeRgb s b) es

/-- The body of ok() (kinect.h lines 113-124), embedded statement by
statement: freenect_update_device_state / freenect_get_device_state /
freenect_get_mks_accel write accel_x_, accel_y_, accel_z_;
freenect_get_tilt_degs writes tilt_angle_; publishImu() is called
unconditionally; finally freenect_process_events pumps the event loop,
synchronously delivering the pending store callbacks (which overwrite the
raw buffers and reset their sent flags) and returning a code, and the
call returns whether that code was nonnegative.  `pending` is the
sequence of store callbacks the pump delivers during this call. -/
def okStepFull (s : KinectState) (p : DevicePoll)
    (pending : List CallbackEvent) : OkOut :=
  let s1 := { s with accel_x_ := p.ax, accel_y_ := p.ay, accel_z_ := p.az }
  let s2 := { s1 with tilt_angle_ := p.tilt }
  let pe := publishImu s2
  { state := execCallbacks pe.1 pending
    emissions := [pe.2]
    result := decide (0 ≤ p.eventsResult) }

/-- ok() in the case where the event pump has no pending callback to
deliver.  The returned value and the emissions of ok() do not depend on
the pending deliveries (okStepFull_result_emissions_independent), so this
form suffices for claims about the return value and the emissions. -/
def okStep (s : KinectState) (p : DevicePoll) : OkOut :=
  okStepFull s p []

/-- The return code and the emissions of ok() are independent of which
store callbacks the event pump delivers during the call: the callbacks
only store. -/
theorem okStepFull_result_emissions_independent :
    ∀ (s : KinectState) (p : DevicePoll) (pending : List CallbackEvent),
      (okStepFull s p pending).result = (okStep s p).result ∧
      (okStepFull s p pending).emissions = (okStep s p).emissions :=
  fun _ _ _ => ⟨rfl, rfl⟩

/-- The driver operations that can touch the frame buffers, for tracking
use of the internal buffer_mutex_ (kinect.h line 145).  The body of ok()
visible in the header performs no mutex operation; per the spec the store
callbacks and the publish snapshot serialize buffer copies under the
lock. -/
inductive DriverAction
  | actStoreDepth
  | actStoreRgb
  | actSnapshot
  | actOk
deriving DecidableEq, Repr

/-- Which driver operations acquire buffer_mutex_. -/
def acquiresBufferMutex : DriverAction → Bool
  | DriverAction.actStoreDepth => true
  | DriverAction.actStoreRgb => true
  | DriverAction.actSnapshot => true
  | DriverAction.actOk => false

/-- Claim C3: the liveness check ok() returns false (stop) if and only if
freenect_process_events returned a negative value (kinect.h line 123). -/
theorem C3_ok_false_iff_events_negative :
    ∀ (s : KinectState) (p : DevicePoll),
      ((okStep s p).result = false ↔ p.eventsResult < 0) := by
  intro s p
  show (decide (0 ≤ p.eventsResult) = false ↔ p.eventsResult < 0)
  simp [decide_eq_false_iff_not, Int.not_le]

/-- A device poll whose event pump reports an error. -/
def failPoll : DevicePoll := ⟨1, 2, 3, 4, -1⟩

/-- Counterexample to claim C4 as stated: on a failing iteration
(freenect_process_events negative) ok() returns stop, yet the inertial
message is still emitted, because the visible body of ok() calls
publishImu() unconditionally before evaluating freenect_process_events. -/
theorem C4_counterexample :
    failPoll.eventsResult < 0 ∧
    (okStep scenarioState failPoll).result = false ∧
    Emission.imuE ⟨1, 2, 3, 4⟩ ∈ (okStep scenarioState failPoll).emissions := by
  refine ⟨by decide, rfl, ?_⟩
  show Emission.imuE ⟨1, 2, 3, 4⟩ ∈ [Emission.imuE ⟨1, 2, 3, 4⟩]
  exact List.mem_singleton.mpr rfl

/-- Claim C4 (amended): on every iteration in which the event pump reports
failure, ok() returns stop and emits no output frame itself; however the
inertial message is emitted unconditionally by the publishImu() call that
precedes the event-pump check, so exactly one inertial message (and
nothing else) is emitted during the failing iteration. -/
theorem C4_amended_stop_still_emits_imu :
    ∀ (s : KinectState) (p : DevicePoll), p.eventsResult < 0 →
      (okStep s p).result = false ∧
      (okStep s p).emissions = [Emission.imuE ⟨p.ax, p.ay, p.az, p.tilt⟩] := by
  intro s p h
  refine ⟨?_, rfl⟩
  show decide (0 ≤ p.eventsResult) = false
  simp [decide_eq_false_iff_not, Int.not_le]
  exact h

/-- Witness for the amended C4 at the concrete failing poll. -/
theorem C4_amended_stop_still_emits_imu_witness :
    (okStep scenarioState failPoll).result = false ∧
    (okStep scenarioState failPoll).emissions = [Emission.imuE ⟨1, 2, 3, 4⟩] :=
  C4_amended_stop_still_emits_imu scenarioState failPoll (by decide)

/-- Fields no store callback writes: delivering any sequence of pending
callbacks leaves the inertial state, the inertial message, the image
dimensions, the region of interest, the projection table and the
intrinsics unchanged. -/
theorem execCallbacks_config_fixed :
    ∀ (es : List CallbackEvent) (s : KinectState),
      (execCallbacks s es).accel_x_ = s.accel_x_ ∧
      (execCallbacks s es).accel_y_ = s.accel_y_ ∧
      (execCallbacks s es).accel_z_ = s.accel_z_ ∧
      (execCallbacks s es).tilt_angle_ = s.tilt_angle_ ∧
      (execCallbacks s es).imu_msg_ = s.imu_msg_ ∧
      (execCallbacks s es).width_ = s.width_ ∧
      (execCallbacks s es).height_ = s.height_ ∧
      (execCallbacks s es).depth_roi_horiz_start_ = s.depth_roi_horiz_start_ ∧
      (execCallbacks s es).depth_roi_horiz_width_ = s.depth_roi_horiz_width_ ∧
      (execCallbacks s es).depth_roi_vert_start_ = s.depth_roi_vert_start_ ∧
      (execCallbacks s es).depth_roi_vert_height_ = s.depth_roi_vert_height_ ∧
      (execCallbacks s es).have_depth_matrix_ = s.have_depth_matrix_ ∧
      (execCallbacks s es).depth_proj_matrix_ = s.depth_proj_matrix_ ∧
      (execCallbacks s es).depth_info_ = s.depth_info_ := by
  intro es
  induction es with
  | nil =>
    intro s
    exact ⟨rfl, rfl, rfl, rfl, rfl, rfl, rfl, rfl, rfl, rfl, rfl, rfl, rfl, rfl⟩
  | cons e t ih =>
    intro s
    cases e with
    | cbDepth b => exact ih (storeDepth s b)
    | cbRgb b => exact ih (storeRgb s b)

/-- A depth frame delivered as the last pending callback overwrites the
raw depth buffer and marks the channel unsent. -/
theorem execCallbacks_append_cbDepth :
    ∀ (es : List CallbackEvent) (s : KinectState) (b : List Nat),
      (execCallbacks s (es ++ [CallbackEvent.cbDepth b])).depth_buf_ = b ∧
      (execCallbacks s (es ++ [CallbackEvent.cbDepth b])).depth_sent_ = false := by
  intro es
  induction es with
  | nil => intro s b; exact ⟨rfl, rfl⟩
  | cons e t ih =>
    intro s b
    cases e with
    | cbDepth c => exact ih (storeDepth s c) b
    | cbRgb c => exact ih (storeRgb s c) b

/-- Counterexample to claim C9 as stated: ok() does not modify only the
four inertial-state fields; the publishImu() call inside it also updates
the imu_msg_ artifact (a field outside the four listed ones), as this
concrete call with no pending callback delivery shows. -/
theorem C9_counterexample :
    (okStepFull scenarioState failPoll []).state.imu_msg_ ≠
      scenarioState.imu_msg_ := by
  decide

/-- Claim C9 (amended): every call of ok() refreshes accel_x_, accel_y_,
accel_z_ and tilt_angle_ from the latest device poll and updates the
inertial message artifact imu_msg_ from those refreshed values, whatever
callbacks the event pump delivers; the dimensions, region of interest,
projection table and intrinsics are always unchanged; the raw frame
buffers and their sent flags are unchanged exactly when the pump delivers
no pending store callback during the call, while a delivered depth frame
overwrites the raw depth buffer and resets its sent flag; and ok() itself
never acquires buffer_mutex_ (the delivered store callbacks do their
copies under the lock per the spec). -/
theorem C9_amended_ok_frame_effect :
    ∀ (s : KinectState) (p : DevicePoll) (pending : List CallbackEvent),
      ((okStepFull s p pending).state.accel_x_ = p.ax ∧
       (okStepFull s p pending).state.accel_y_ = p.ay ∧
       (okStepFull s p pending).state.accel_z_ = p.az ∧
       (okStepFull s p pending).state.tilt_angle_ = p.tilt) ∧
      (okStepFull s p pending).state.imu_msg_ = ⟨p.ax, p.ay, p.az, p.tilt⟩ ∧
      (okStepFull s p pending).emissions =
        [Emission.imuE ⟨p.ax, p.ay, p.az, p.tilt⟩] ∧
      ((okStepFull s p pending).state.width_ = s.width_ ∧
       (okStepFull s p pending).state.height_ = s.height_ ∧
       (okStepFull s p pending).state.depth_roi_horiz_start_ = s.depth_roi_horiz_start_ ∧
       (okStepFull s p pending).state.depth_roi_horiz_width_ = s.depth_roi_horiz_width_ ∧
       (okStepFull s p pending).state.depth_roi_vert_start_ = s.depth_roi_vert_start_ ∧
       (okStepFull s p pending).state.depth_roi_vert_height_ = s.depth_roi_vert_height_ ∧
       (okStepFull s p pending).state.have_depth_matrix_ = s.have_depth_matrix_ ∧
       (okStepFull s p pending).state.depth_proj_matrix_ = s.depth_proj_matrix_ ∧
       (okStepFull s p pending).state.depth_info_ = s.depth_info_) ∧
      (pending = [] →
        (okStepFull s p pending).state.depth_buf_ = s.depth_buf_ ∧
        (okStepFull s p pending).state.rgb_buf_ = s.rgb_buf_ ∧
        (okStepFull s p pending).state.depth_sent_ = s.depth_sent_ ∧
        (okStepFull s p pending).state.rgb_sent_ = s.rgb_sent_) ∧
      (∀ b : List Nat,
        (okStepFull s p (pending ++ [CallbackEvent.cbDepth b])).state.depth_buf_ = b ∧
        (okStepFull s p (pending ++ [CallbackEvent.cbDepth b])).state.depth_sent_ = false) ∧
      acquiresBufferMutex DriverAction.actOk = false := by
  intro s p pending
  obtain ⟨hax, hay, haz, htilt, himu, hw, hh, h1, h2, h3, h4, hm, hpm, hinfo⟩ :=
    execCallbacks_config_fixed pending
      { s with accel_x_ := p.ax, accel_y_ := p.ay, accel_z_ := p.az,
               tilt_angle_ := p.tilt, imu_msg_ := ⟨p.ax, p.ay, p.az, p.tilt⟩ }
  refine ⟨⟨hax, hay, haz, htilt⟩, himu, rfl,
    ⟨hw, hh, h1, h2, h3, h4, hm, hpm, hinfo⟩, ?_, ?_, rfl⟩
  · intro hp
    subst hp
    exact ⟨rfl, rfl, rfl, rfl⟩
  · intro b
    exact execCallbacks_append_cbDepth pending _ b

/-- Witness for the amended C9: with no pending callback delivery the
depth buffer is untouched, and the inertial message takes the polled
values. -/
theorem C9_amended_ok_frame_effect_witness :
    (okStepFull scenarioState failPoll []).state.depth_buf_ =
      scenarioState.depth_buf_ ∧
    (okStepFull scenarioState failPoll []).state.imu_msg_ = ⟨1, 2, 3, 4⟩ :=
  ⟨((C9_amended_ok_frame_effect scenarioState failPoll []).2.2.2.2.1 rfl).1,
   (C9_amended_ok_frame_effect scenarioState failPoll []).2.1⟩

/-- The per-channel data a publish cycle observes: the raw buffer when the
channel holds new data, none otherwise. -/
structure Snapshot where
  depthData : Option (List Nat)
  rgbData : Option (List Nat)
deriving DecidableEq, Repr

/-- Modelled from the spec: the snapshot phase of publish (kinect.h line
128; body not in the repository) copies out whichever channels hold new
data and marks them sent, all in one critical section. -/
def snapshotForPublish (s : KinectState) : Snapshot × KinectState :=
  (⟨if s.depth_sent_ then none else some s.depth_buf_,
    if s.rgb_sent_ then none else some s.rgb_buf_⟩,
   { s with depth_sent_ := true, rgb_sent_ := true })

/-- Events interleaving store callbacks and publish snapshots. -/
inductive StoreEvent
  | evStoreDepth (buf : List Nat)
  | evStoreRgb (buf : List Nat)
  | evSnapshot
deriving DecidableEq, Repr

/-- Run a sequence of store/snapshot events against the driver state. -/
def execStore : KinectState → List StoreEvent → KinectState
  | s, [] => s
  | s, StoreEvent.evStoreDepth b :: es => execStore (storeDepth s b) es
  | s, StoreEvent.evStoreRgb b :: es => execStore (storeRgb s b) es
  | s, StoreEvent.evSnapshot :: es => execStore (snapshotForPublish s).2 es

theorem execStore_depth_sent_of_no_store :
    ∀ (es : List StoreEvent) (s : KinectState), s.depth_sent_ = true →
      (∀ e ∈ es, ∀ b, e ≠ StoreEvent.evStoreDepth b) →
      (execStore s es).depth_sent_ = true := by
  intro es
  induction es with
  | nil => intro s h _; exact h
  | cons e t ih =>
    intro s h hno
    cases e with
    | evStoreDepth b => exact absurd rfl (hno _ (List.mem_cons_self _ _) b)
    | evStoreRgb b =>
      exact ih (storeRgb s b) h (fun e he => hno e (List.mem_cons_of_mem _ he))
    | evSnapshot =>
      exact ih (snapshotForPublish s).2 rfl (fun e he => hno e (List.mem_cons_of_mem _ he))

theorem execStore_rgb_sent_of_no_store :
    ∀ (es : List StoreEvent) (s : KinectState), s.rgb_sent_ = true →
      (∀ e ∈ es, ∀ b, e ≠ StoreEvent.evStoreRgb b) →
      (execStore s es).rgb_sent_ = true := by
  intro es
  induction es with
  | nil => intro s h _; exact h
  | cons e t ih =>
    intro s h hno
    cases e with
    | evStoreRgb b => exact absurd rfl (hno _ (List.mem_cons_self _ _) b)
    | evStoreDepth b =>
      exact ih (storeDepth s b) h (fun e he => hno e (List.mem_cons_of_mem _ he))
    | evSnapshot =>
      exact ih (snapshotForPublish s).2 rfl (fun e he => hno e (List.mem_cons_of_mem _ he))

/-- Claim C6: at-most-once delivery of raw frames to the publish path.
After a snapshot has consumed a channel, any later snapshot with no
intervening store callback for that channel observes no data for it, for
both the depth and the color channel. -/
theorem C6_at_most_once_delivery :
    ∀ (s : KinectState) (es : List StoreEvent),
      ((∀ e ∈ es, ∀ b, e ≠ StoreEvent.evStoreDepth b) →
        ((snapshotForPublish (execStore (snapshotForPublish s).2 es)).1).depthData = none) ∧
      ((∀ e ∈ es, ∀ b, e ≠ StoreEvent.evStoreRgb b) →
        ((snapshotForPublish (execStore (snapshotForPublish s).2 es)).1).rgbData = none) := by
  intro s es
  constructor
  · intro hno
    have h := execStore_depth_sent_of_no_store es (snapshotForPublish s).2 rfl hno
    show (if (execStore (snapshotForPublish s).2 es).depth_sent_ then none
          else some (execStore (snapshotForPublish s).2 es).depth_buf_) = none
    rw [h]
    rfl
  · intro hno
    have h := execStore_rgb_sent_of_no_store es (snapshotForPublish s).2 rfl hno
    show (if (execStore (snapshotForPublish s).2 es).rgb_sent_ then none
          else some (execStore (snapshotForPublish s).2 es).rgb_buf_) = none
    rw [h]
    rfl

/-- Witness for C6: with only a color store and a further snapshot between
two depth observations, the second snapshot observes no depth data. -/
theorem C6_at_most_once_delivery_witness :
    ((snapshotForPublish (execStore (snapshotForPublish scenarioState).2
        [StoreEvent.evStoreRgb [7], StoreEvent.evSnapshot])).1).depthData = none :=
  (C6_at_most_once_delivery scenarioState
      [StoreEvent.evStoreRgb [7], StoreEvent.evSnapshot]).1
    (by
      intro e he b
      rcases List.mem_cons.mp he with rfl | he2
      · exact fun h => StoreEvent.noConfusion h
      · rcases List.mem_cons.mp he2 with rfl | he3
        · exact fun h => StoreEvent.noConfusion h
        · simp at he3)

/-- Modelled from the spec: the body of createDepthProjectionMatrix
(declared at kinect.h line 226) is not in the repository.  Per the spec it
computes, for every pixel (u,v), the inverse-pinhole ray coefficients such
that x = rayX * depthMeters and y = rayY * depthMeters; the table has one
entry per pixel, width * height in all. -/
def buildProjectionTable (k : Intrinsics) (w h : Nat) : List Ray :=
  (List.range (w * h)).map fun i =>
    ⟨(((i % w : Nat) : ℚ) - k.cx) / k.fx, (((i / w : Nat) : ℚ) - k.cy) / k.fy⟩

/-- createDepthProjectionMatrix as a state transformer: rebuilds the
per-pixel table from the current intrinsics and sets have_depth_matrix_
(kinect.h lines 204-208). -/
def createDepthProjectionMatrix (s : KinectState) : KinectState :=
  { s with
    depth_proj_matrix_ := buildProjectionTable s.depth_info_ s.width_ s.height_
    have_depth_matrix_ := true }

/-- Modelled from the spec: the publish path builds the projection table on
first use: the table is built exactly once per session unless intrinsics
change, guarded by have_depth_matrix_ (kinect.h line 205). -/
def ensureDepthMatrix (s : KinectState) : KinectState :=
  if s.have_depth_matrix_ then s else createDepthProjectionMatrix s

/-- Which output kinds currently have at least one subscribed consumer
(the publishers pub_rgb_, pub_depth_, pub_points_, pub_points2_ of
kinect.h lines 148-149). -/
structure Subscribers where
  depthImg : Bool
  rgbImg : Bool
  points : Bool
  points2 : Bool
deriving DecidableEq, Repr

/-- Result of one publish cycle: the updated driver state, the emitted
messages, the number of getPoint3D invocations performed, and the state
the reconstruction ran on (none when no reconstruction was computed). -/
structure PublishOut where
  state : KinectState
  emissions : List Emission
  reconCalls : Nat
  reconOn : Option KinectState
deriving DecidableEq, Repr

/-- Modelled from the spec: the body of publish (declared at kinect.h line
128) is not in the repository.  Per the spec, each output kind is emitted
only if the relevant raw channel had new data this cycle and at least one
consumer is subscribed to that output kind; point-cloud generation ensures
the projection table, iterates the region of interest calling getPoint3D
once per pixel, and both channels are marked sent afterwards. -/
def publishCycle (s : KinectState) (subs : Subscribers) : PublishOut :=
  let depthNew := !s.depth_sent_
  let rgbNew := !s.rgb_sent_
  let needCloud := depthNew && (subs.points || subs.points2)
  let sr := if needCloud then ensureDepthMatrix s else s
  let cloud := generateCloud sr s.depth_buf_
  { state := { sr with depth_sent_ := true, rgb_sent_ := true }
    emissions :=
      (if depthNew && subs.depthImg then [Emission.depthImgE s.depth_buf_] else []) ++
      (if rgbNew && subs.rgbImg then [Emission.rgbImgE s.rgb_buf_] else []) ++
      (if needCloud && subs.points then [Emission.cloudE cloud] else []) ++
      (if needCloud && subs.points2 then [Emission.cloud2E cloud] else [])
    reconCalls := if needCloud then (roiPixels sr).length else 0
    reconOn := if needCloud then some sr else none }

/-- The projection-table well-formedness invariant: whenever the table is
marked built, it has one entry per pixel. -/
def MatrixWF (s : KinectState) : Prop :=
  s.have_depth_matrix_ = true →
    s.depth_proj_matrix_.length = s.width_ * s.height_

/-- Claim C5: the projection-ray table invariant.  From a well-formed
state, the ensure step run by the publish path yields a state with the
table built and sized width * height; any state a publish cycle actually
reconstructs on satisfies the same; and rebuilding the table without an
intrinsics change is idempotent, leaving reconstruction results
unchanged. -/
theorem C5_projection_table_invariant :
    ∀ s : KinectState, MatrixWF s →
      (ensureDepthMatrix s).have_depth_matrix_ = true ∧
      (ensureDepthMatrix s).depth_proj_matrix_.length =
        (ensureDepthMatrix s).width_ * (ensureDepthMatrix s).height_ ∧
      createDepthProjectionMatrix (createDepthProjectionMatrix s) =
        createDepthProjectionMatrix s ∧
      (∀ (buf : List Nat) (u v : Nat),
        getPoint3D (createDepthProjectionMatrix (createDepthProjectionMatrix s)) buf u v =
          getPoint3D (createDepthProjectionMatrix s) buf u v) ∧
      (∀ (subs : Subscribers) (t : KinectState),
        (publishCycle s subs).reconOn = some t →
          t.have_depth_matrix_ = true ∧
          t.depth_proj_matrix_.length = t.width_ * t.height_) := by
  intro s hwf
  have hens : (ensureDepthMatrix s).have_depth_matrix_ = true := by
    unfold ensureDepthMatrix
    by_cases h : s.have_depth_matrix_ = true
    · rw [if_pos h]; exact h
    · rw [if_neg h]; rfl
  have hlen : (ensureDepthMatrix s).depth_proj_matrix_.length =
      (ensureDepthMatrix s).width_ * (ensureDepthMatrix s).height_ := by
    unfold ensureDepthMatrix
    by_cases h : s.have_depth_matrix_ = true
    · rw [if_pos h]; exact hwf h
    · rw [if_neg h]
      show (buildProjectionTable s.depth_info_ s.width_ s.height_).length =
        s.width_ * s.height_
      simp [buildProjectionTable]
  have hidem : createDepthProjectionMatrix (createDepthProjectionMatrix s) =
      createDepthProjectionMatrix s := rfl
  refine ⟨hens, hlen, hidem, fun buf u v => by rw [hidem], ?_⟩
  intro subs t ht
  have key : (publishCycle s subs).reconOn = none ∨
      (publishCycle s subs).reconOn = some (ensureDepthMatrix s) := by
    cases hds : s.depth_sent_ <;> cases hp : subs.points <;> cases hp2 : subs.points2 <;>
      simp [publishCycle, hds, hp, hp2]
  rcases key with h | h
  · rw [h] at ht
    simp at ht
  · rw [h] at ht
    obtain rfl := Option.some.inj ht
    exact ⟨hens, hlen⟩

/-- Witness for C5 at the concrete scenario state, whose table is built
with 16 = 4 * 4 entries. -/
theorem C5_projection_table_invariant_witness :
    (ensureDepthMatrix scenarioState).have_depth_matrix_ = true ∧
    (ensureDepthMatrix scenarioState).depth_proj_matrix_.length =
      (ensureDepthMatrix scenarioState).width_ * (ensureDepthMatrix scenarioState).height_ :=
  ⟨(C5_projection_table_invariant scenarioState (fun _ => rfl)).1,
   (C5_projection_table_invariant scenarioState (fun _ => rfl)).2.1⟩

/-- Claim C7: the publish cycle performs point-cloud reconstruction only
when some consumer is subscribed to a point-cloud output kind; with no
such subscriber, no getPoint3D call is made and no cloud message is
emitted, even when new depth data arrived this cycle. -/
theorem C7_no_reconstruction_without_subscriber :
    ∀ (s : KinectState) (subs : Subscribers),
      subs.points = false → subs.points2 = false →
      (publishCycle s subs).reconCalls = 0 ∧
      (publishCycle s subs).reconOn = none ∧
      ∀ pts : List Point3D,
        Emission.cloudE pts ∉ (publishCycle s subs).emissions ∧
        Emission.cloud2E pts ∉ (publishCycle s subs).emissions := by
  intro s subs h1 h2
  cases hd : s.depth_sent_ <;> cases hdi : subs.depthImg <;>
    cases hr : s.rgb_sent_ <;> cases hri : subs.rgbImg <;>
      simp [publishCycle, h1, h2, hd, hdi, hr, hri]

/-- Witness for C7: with depth and color image consumers but no
point-cloud consumer, a cycle over the scenario state (which has fresh
depth data) performs zero reconstruction calls. -/
theorem C7_no_reconstruction_without_subscriber_witness :
    (publishCycle scenarioState ⟨true, true, false, false⟩).reconCalls = 0 :=
  (C7_no_reconstruction_without_subscriber scenarioState
    ⟨true, true, false, false⟩ rfl rfl).1

/-- The two stream modes of the shared color sensor path. -/
inductive StreamMode
  | colorActive
  | infraredActive
deriving DecidableEq, Repr

/-- The stream-mode controller state: the current logical mode and which
physical capture paths the device currently reports running.  Modelled
from the spec: the body of formatSwitchCb (declared at kinect.h line 239,
driven by format_switch_timer_ and can_switch_stream_, lines 210-212) is
not in the repository; per the spec the timer-driven transition stops the
currently active path before starting the new one. -/
structure StreamState where
  mode : StreamMode
  colorStreaming : Bool
  irStreaming : Bool
deriving DecidableEq, Repr

/-- First half of the timer transition: stop the currently active path. -/
def stopCurrentStream (s : StreamState) : StreamState :=
  match s.mode with
  | StreamMode.colorActive => { s with colorStreaming := false }
  | StreamMode.infraredActive => { s with irStreaming := false }

/-- Second half of the timer transition: start the other path and flip
the mode. -/
def startNextStream (s : StreamState) : StreamState :=
  match s.mode with
  | StreamMode.colorActive =>
      { s with mode := StreamMode.infraredActive, irStreaming := true }
  | StreamMode.infraredActive =>
      { s with mode := StreamMode.colorActive, colorStreaming := true }

/-- The complete serialized timer transition: stop, then start. -/
def formatSwitchCb (s : StreamState) : StreamState :=
  startNextStream (stopCurrentStream s)

/-- The states observable across the stop/start transition boundary:
after the stop and after the start. -/
def switchTrace (s : StreamState) : List StreamState :=
  [stopCurrentStream s, startNextStream (stopCurrentStream s)]

/-- The initial controller state: color active, infrared off. -/
def streamInit : StreamState := ⟨StreamMode.colorActive, true, false⟩

/-- States reachable from the initial state by timer firings. -/
inductive StreamReachable : StreamState → Prop
  | init : StreamReachable streamInit
  | fire {s : StreamState} : StreamReachable s → StreamReachable (formatSwitchCb s)

/-- Mode consistency: the path opposite to the current mode is off. -/
def StreamConsistent (s : StreamState) : Prop :=
  (s.mode = StreamMode.colorActive → s.irStreaming = false) ∧
  (s.mode = StreamMode.infraredActive → s.colorStreaming = false)

theorem formatSwitchCb_colorActive (s : StreamState)
    (hm : s.mode = StreamMode.colorActive) :
    formatSwitchCb s =
      { mode := StreamMode.infraredActive, colorStreaming := false,
        irStreaming := true } := by
  simp [formatSwitchCb, stopCurrentStream, startNextStream, hm]

theorem formatSwitchCb_infraredActive (s : StreamState)
    (hm : s.mode = StreamMode.infraredActive) :
    formatSwitchCb s =
      { mode := StreamMode.colorActive, colorStreaming := true,
        irStreaming := false } := by
  simp [formatSwitchCb, stopCurrentStream, startNextStream, hm]

theorem streamConsistent_step (s : StreamState) :
    StreamConsistent (formatSwitchCb s) := by
  cases hm : s.mode
  · rw [formatSwitchCb_colorActive s hm]
    exact ⟨fun hh => absurd hh (by decide), fun _ => rfl⟩
  · rw [formatSwitchCb_infraredActive s hm]
    exact ⟨fun _ => rfl, fun hh => absurd hh (by decide)⟩

theorem streamConsistent_of_reachable :
    ∀ s : StreamState, StreamReachable s → StreamConsistent s := by
  intro s h
  induction h with
  | init => exact ⟨fun _ => rfl, fun hh => absurd hh (by decide)⟩
  | fire _ _ => exact streamConsistent_step _

theorem not_both_of_consistent (s : StreamState) (h : StreamConsistent s) :
    ¬(s.colorStreaming = true ∧ s.irStreaming = true) := by
  rintro ⟨hc, hi⟩
  obtain ⟨h1, h2⟩ := h
  cases hm : s.mode
  · rw [h1 hm] at hi
    exact Bool.noConfusion hi
  · rw [h2 hm] at hc
    exact Bool.noConfusion hc

theorem not_both_stop (s : StreamState) :
    ¬((stopCurrentStream s).colorStreaming = true ∧
      (stopCurrentStream s).irStreaming = true) := by
  rintro ⟨hc, hi⟩
  cases hm : s.mode <;> simp [stopCurrentStream, hm] at hc hi

/-- Claim C8: in every reachable state of the stream-mode controller, and
in every state observable during the timer-driven stop/start transition
from a reachable state, color and infrared are never both reported
streaming: the transition stops the active path before starting the new
one, so no both-active intermediate state exists. -/
theorem C8_never_both_streams_active :
    ∀ s : StreamState, StreamReachable s →
      ¬(s.colorStreaming = true ∧ s.irStreaming = true) ∧
      ∀ t ∈ switchTrace s,
        ¬(t.colorStreaming = true ∧ t.irStreaming = true) := by
  intro s hr
  have hc := streamConsistent_of_reachable s hr
  refine ⟨not_both_of_consistent s hc, ?_⟩
  intro t ht
  rcases List.mem_cons.mp ht with rfl | ht2
  · exact not_both_stop s
  · rcases List.mem_cons.mp ht2 with rfl | ht3
    · exact not_both_of_consistent _ (streamConsistent_step s)
    · simp at ht3

/-- Witness for C8 at the initial state. -/
theorem C8_never_both_streams_active_witness :
    ¬(streamInit.colorStreaming = true ∧ streamInit.irStreaming = true) :=
  (C8_never_both_streams_active streamInit StreamReachable.init).1

/-- Member-call embedding of the const member getPoint3D (kinect.h line
141): the call returns the receiver state unchanged along with the value,
because the const qualifier in the header forbids modifying any field. -/
def getPoint3D_call (s : KinectState) (buf : List Nat) (u v : Nat) :
    KinectState × Option Point3D :=
  (s, getPoint3D s buf u v)

/-- Member-call embedding of the const member getDistanceFromReading
(kinect.h line 231), likewise state-preserving. -/
def getDistanceFromReading_call (s : KinectState) (reading : Nat) :
    KinectState × Option ℚ :=
  (s, getDistanceFromReading reading)

/-- Claim C10: getPoint3D and getDistanceFromReading are const member
functions: a call leaves every field of the driver state unchanged, and
repeating the same call on the post-call state produces the same
output. -/
theorem C10_const_members_read_only :
    ∀ (s : KinectState) (buf : List Nat) (u v reading : Nat),
      (getPoint3D_call s buf u v).1 = s ∧
      (getDistanceFromReading_call s reading).1 = s ∧
      (getPoint3D_call ((getPoint3D_call s buf u v).1) buf u v).2 =
        (getPoint3D_call s buf u v).2 ∧
      (getDistanceFromReading_call ((getDistanceFromReading_call s reading).1) reading).2 =
        (getDistanceFromReading_call s reading).2 :=
  fun _ _ _ _ _ => ⟨rfl, rfl, rfl, rfl⟩
